import Mathlib

/-!
Shallow embedding of the core of the macro-trading demo simulator:
`src/backend/model/macro_evolution_engine.py` (macro-state evolution and
regime classification) and `src/backend/controller/timeline_scheduler.py`
(timeline scheduling).  Timestamps and datetimes are modelled as rationals
(seconds on a linear time axis; ISO timestamp strings are order-isomorphic
to this axis), real numbers as rationals, and the Supabase tables as
in-memory lists of rows.  Database reads and inserts are modelled by the
corresponding pure list operations: an ordered query is a stable merge
sort followed by a take, an insert appends the row to the table.
-/

namespace MacroSim

/-- A row of the `macro_variables_history` table. -/
structure HistoryRow where
  timestamp : ℚ
  growth : ℚ
  inflation : ℚ
  volatility : ℚ
  cause_type : String
  cause_id : Option Nat
deriving DecidableEq

/-- A row of the `economic_releases` table (only the columns the engine
reads: the id used for lookup and the three impact columns). -/
structure ReleaseRow where
  id : Nat
  impact_growth : ℚ
  impact_inflation : ℚ
  impact_volatility : ℚ
deriving DecidableEq

/-- A row of the `macro_events` table (only the columns the engine reads). -/
structure EventRow where
  id : Nat
  impact_growth : ℚ
  impact_inflation : ℚ
  impact_volatility : ℚ
deriving DecidableEq

/-- The state dictionary built by `get_current_state` and by the two
apply functions: keys `growth`, `inflation`, `volatility`, `timestamp`. -/
structure MacroState where
  growth : ℚ
  inflation : ℚ
  volatility : ℚ
  timestamp : ℚ
deriving DecidableEq

/-- The failure modes of the engine (`MacroEvolutionError` messages). -/
inductive EngineError where
  | noInitialState
  | releaseNotFound (id : Nat)
  | eventNotFound (id : Nat)
deriving DecidableEq

/-- `db.query_with_order('macro_variables_history', order_by='timestamp',
ascending=False, limit=1)`: sort the table by timestamp descending (a
stable sort, like the database's ordered scan) and take the first row. -/
def queryLatest (hist : List HistoryRow) : Option HistoryRow :=
  (hist.mergeSort (fun a b => decide (b.timestamp ≤ a.timestamp))).head?

/-- `db.get_by_id('economic_releases', release_id)`. -/
def getReleaseById (releases : List ReleaseRow) (rid : Nat) : Option ReleaseRow :=
  releases.find? (fun r => r.id == rid)

/-- `db.get_by_id('macro_events', event_id)`. -/
def getEventById (events : List EventRow) (eid : Nat) : Option EventRow :=
  events.find? (fun e => e.id == eid)

/-- `MacroEvolutionEngine.get_current_state`: the most recent history row,
or an error when the history table is empty. -/
def get_current_state (hist : List HistoryRow) : Except EngineError MacroState :=
  match queryLatest hist with
  | none => .error .noInitialState
  | some latest => .ok ⟨latest.growth, latest.inflation, latest.volatility, latest.timestamp⟩

/-- `MacroEvolutionEngine.apply_release_impact`: look the release up, read
the current state, add the three impact deltas (volatility clamped at 0),
insert the new row into the history table and return the new state.  The
`timestamp` parameter stands for the caller-supplied timestamp (the
`datetime.utcnow()` default is a wall-clock value supplied here explicitly). -/
def apply_release_impact (releases : List ReleaseRow) (hist : List HistoryRow)
    (release_id : Nat) (timestamp : ℚ) : Except EngineError (MacroState × List HistoryRow) :=
  match getReleaseById releases release_id with
  | none => .error (.releaseNotFound release_id)
  | some release =>
    match get_current_state hist with
    | .error e => .error e
    | .ok current =>
      let new_growth := current.growth + release.impact_growth
      let new_inflation := current.inflation + release.impact_inflation
      let new_volatility := max 0 (current.volatility + release.impact_volatility)
      let new_row : HistoryRow :=
        ⟨timestamp, new_growth, new_inflation, new_volatility, "release", some release_id⟩
      .ok (⟨new_growth, new_inflation, new_volatility, timestamp⟩, hist ++ [new_row])

/-- `MacroEvolutionEngine.apply_event_impact`: same computation as the
release path, against the `macro_events` table, recording cause `event`. -/
def apply_event_impact (events : List EventRow) (hist : List HistoryRow)
    (event_id : Nat) (timestamp : ℚ) : Except EngineError (MacroState × List HistoryRow) :=
  match getEventById events event_id with
  | none => .error (.eventNotFound event_id)
  | some event =>
    match get_current_state hist with
    | .error e => .error e
    | .ok current =>
      let new_growth := current.growth + event.impact_growth
      let new_inflation := current.inflation + event.impact_inflation
      let new_volatility := max 0 (current.volatility + event.impact_volatility)
      let new_row : HistoryRow :=
        ⟨timestamp, new_growth, new_inflation, new_volatility, "event", some event_id⟩
      .ok (⟨new_growth, new_inflation, new_volatility, timestamp⟩, hist ++ [new_row])

/-- `MacroEvolutionEngine.describe_regime` on an explicit state (the
`state is None` default re-reads the current state and is applied by the
caller).  The source also binds the state's volatility to a local variable
but never uses it in any condition. -/
def describe_regime (state : MacroState) : String :=
  if state.growth > 4 ∧ state.inflation > 4 then
    "Boom: High growth with elevated inflation"
  else if state.growth > 3 ∧ state.inflation < 3 then
    "Goldilocks: Strong growth with moderate inflation"
  else if state.growth > 3 ∧ state.inflation > 3 then
    "Overheating: Strong growth with rising inflation pressures"
  else if state.growth < 1 ∧ state.inflation < 2 then
    "Stagnation: Low growth and subdued inflation"
  else if state.growth < 1 ∧ state.inflation > 3 then
    "Stagflation: Low growth with high inflation"
  else if state.growth < 0 then
    "Recession: Negative growth"
  else
    "Expansion: Moderate growth"

/-- The qualitative regime label: the part of the regime string before the
colon. -/
def regimeLabel (s : String) : String := ⟨s.data.takeWhile (fun c => c != ':')⟩

/-- Modelled from the spec (refinement side of C3): the seven
classification rules of the spec as an ordered decision list of
(condition, label) pairs; the seventh, default rule is the evaluator's
default label. -/
def regimeRulesSpec : List ((ℚ → ℚ → Bool) × String) :=
  [ (fun g i => decide (g > 4 ∧ i > 4), "Boom"),
    (fun g i => decide (g > 3 ∧ i < 3), "Goldilocks"),
    (fun g i => decide (g > 3 ∧ i > 3), "Overheating"),
    (fun g i => decide (g < 1 ∧ i < 2), "Stagnation"),
    (fun g i => decide (g < 1 ∧ i > 3), "Stagflation"),
    (fun g _ => decide (g < 0), "Recession") ]

/-- Modelled from the spec (refinement side of C3): evaluate an ordered
decision list; the first matching rule wins, with a default label when no
rule matches. -/
def firstMatching (rules : List ((ℚ → ℚ → Bool) × String)) (dflt : String)
    (g i : ℚ) : String :=
  match rules with
  | [] => dflt
  | (c, l) :: rest => if c g i then l else firstMatching rest dflt g i

/-- C1: applying a release or macro-event impact adds the event's growth
and inflation deltas to the current state, appends the resulting row to
the history and returns it; in particular, from history
`[{growth 2, inflation 2, volatility 10, cause initial}]`, a release with
impacts (0.5, -0.2, 3.0) yields state (2.5, 1.8, 13) whose regime label is
"Expansion". -/
theorem apply_impact_adds_deltas :
    (∀ (releases : List ReleaseRow) (hist : List HistoryRow) (rid : Nat) (ts : ℚ)
        (rel : ReleaseRow) (cur : MacroState),
        getReleaseById releases rid = some rel →
        get_current_state hist = .ok cur →
        apply_release_impact releases hist rid ts =
          .ok (⟨cur.growth + rel.impact_growth, cur.inflation + rel.impact_inflation,
                 max 0 (cur.volatility + rel.impact_volatility), ts⟩,
               hist ++ [⟨ts, cur.growth + rel.impact_growth,
                          cur.inflation + rel.impact_inflation,
                          max 0 (cur.volatility + rel.impact_volatility),
                          "release", some rid⟩]))
    ∧ (∀ (events : List EventRow) (hist : List HistoryRow) (eid : Nat) (ts : ℚ)
        (ev : EventRow) (cur : MacroState),
        getEventById events eid = some ev →
        get_current_state hist = .ok cur →
        apply_event_impact events hist eid ts =
          .ok (⟨cur.growth + ev.impact_growth, cur.inflation + ev.impact_inflation,
                 max 0 (cur.volatility + ev.impact_volatility), ts⟩,
               hist ++ [⟨ts, cur.growth + ev.impact_growth,
                          cur.inflation + ev.impact_inflation,
                          max 0 (cur.volatility + ev.impact_volatility),
                          "event", some eid⟩]))
    ∧ (apply_release_impact [⟨1, 0.5, -0.2, 3⟩] [⟨0, 2, 2, 10, "initial", none⟩] 1 1 =
         .ok (⟨2.5, 1.8, 13, 1⟩,
              [⟨0, 2, 2, 10, "initial", none⟩, ⟨1, 2.5, 1.8, 13, "release", some 1⟩])
        ∧ regimeLabel (describe_regime ⟨2.5, 1.8, 13, 1⟩) = "Expansion") := by
  refine ⟨?_, ?_, ?_, ?_⟩
  · intro releases hist rid ts rel cur h1 h2
    simp only [apply_release_impact, h1, h2]
  · intro events hist eid ts ev cur h1 h2
    simp only [apply_event_impact, h1, h2]
  · simp only [apply_release_impact, getReleaseById, get_current_state, queryLatest,
      List.find?, List.mergeSort_singleton, List.head?]
    norm_num
  · have h : describe_regime ⟨2.5, 1.8, 13, 1⟩ = "Expansion: Moderate growth" := by
      simp only [describe_regime]
      norm_num
    rw [h]
    decide

/-- Witness for C1 at the end-to-end scenario input. -/
theorem apply_impact_adds_deltas_witness :
    apply_release_impact [⟨1, 0.5, -0.2, 3⟩] [⟨0, 2, 2, 10, "initial", none⟩] 1 1 =
      .ok (⟨2.5, 1.8, 13, 1⟩,
           [⟨0, 2, 2, 10, "initial", none⟩, ⟨1, 2.5, 1.8, 13, "release", some 1⟩]) := by
  have h := apply_impact_adds_deltas.1 [⟨1, 0.5, -0.2, 3⟩] [⟨0, 2, 2, 10, "initial", none⟩]
    1 1 ⟨1, 0.5, -0.2, 3⟩ ⟨2, 2, 10, 0⟩ rfl
    (by simp [get_current_state, queryLatest])
  refine h.trans ?_
  rw [max_eq_right (by norm_num : (0 : ℚ) ≤ (10 : ℚ) + 3)]
  norm_num

/-- C2: neither impact path can drive volatility negative: the stored
volatility is `max 0 (current + delta)`, hence `≥ 0`, and a current
volatility of 1 with impact -5 is clamped to exactly 0. -/
theorem volatility_floor :
    (∀ (releases : List ReleaseRow) (hist : List HistoryRow) (rid : Nat) (ts : ℚ)
        (ns : MacroState) (hist2 : List HistoryRow),
        apply_release_impact releases hist rid ts = .ok (ns, hist2) → 0 ≤ ns.volatility)
    ∧ (∀ (events : List EventRow) (hist : List HistoryRow) (eid : Nat) (ts : ℚ)
        (ns : MacroState) (hist2 : List HistoryRow),
        apply_event_impact events hist eid ts = .ok (ns, hist2) → 0 ≤ ns.volatility)
    ∧ (∀ (releases : List ReleaseRow) (hist : List HistoryRow) (rid : Nat) (ts : ℚ)
        (rel : ReleaseRow) (cur ns : MacroState) (hist2 : List HistoryRow),
        getReleaseById releases rid = some rel →
        get_current_state hist = .ok cur →
        apply_release_impact releases hist rid ts = .ok (ns, hist2) →
        ns.volatility = max 0 (cur.volatility + rel.impact_volatility))
    ∧ (∀ (events : List EventRow) (hist : List HistoryRow) (eid : Nat) (ts : ℚ)
        (ev : EventRow) (cur ns : MacroState) (hist2 : List HistoryRow),
        getEventById events eid = some ev →
        get_current_state hist = .ok cur →
        apply_event_impact events hist eid ts = .ok (ns, hist2) →
        ns.volatility = max 0 (cur.volatility + ev.impact_volatility))
    ∧ (apply_release_impact [⟨2, 0, 0, -5⟩] [⟨0, 2, 2, 1, "initial", none⟩] 2 1 =
         .ok (⟨2, 2, 0, 1⟩,
              [⟨0, 2, 2, 1, "initial", none⟩, ⟨1, 2, 2, 0, "release", some 2⟩])) := by
  refine ⟨?_, ?_, ?_, ?_, ?_⟩
  · intro releases hist rid ts ns hist2 h
    simp only [apply_release_impact] at h
    split at h
    · simp at h
    · split at h
      · simp at h
      · simp only [Except.ok.injEq, Prod.mk.injEq] at h
        obtain ⟨h3, -⟩ := h
        subst h3
        exact le_max_left 0 _
  · intro events hist eid ts ns hist2 h
    simp only [apply_event_impact] at h
    split at h
    · simp at h
    · split at h
      · simp at h
      · simp only [Except.ok.injEq, Prod.mk.injEq] at h
        obtain ⟨h3, -⟩ := h
        subst h3
        exact le_max_left 0 _
  · intro releases hist rid ts rel cur ns hist2 h1 h2 h
    simp only [apply_release_impact, h1, h2, Except.ok.injEq, Prod.mk.injEq] at h
    obtain ⟨h3, -⟩ := h
    subst h3
    rfl
  · intro events hist eid ts ev cur ns hist2 h1 h2 h
    simp only [apply_event_impact, h1, h2, Except.ok.injEq, Prod.mk.injEq] at h
    obtain ⟨h3, -⟩ := h
    subst h3
    rfl
  · simp only [apply_release_impact, getReleaseById, get_current_state, queryLatest,
      List.find?, List.mergeSort_singleton, List.head?]
    norm_num

/-- Witness for C2: the clamped state of the concrete scenario has
non-negative volatility, via the release-path invariant. -/
theorem volatility_floor_witness :
    0 ≤ (⟨2, 2, 0, 1⟩ : MacroState).volatility :=
  volatility_floor.1 [⟨2, 0, 0, -5⟩] [⟨0, 2, 2, 1, "initial", none⟩] 2 1 ⟨2, 2, 0, 1⟩
    [⟨0, 2, 2, 1, "initial", none⟩, ⟨1, 2, 2, 0, "release", some 2⟩]
    volatility_floor.2.2.2.2

/-- C3: `describe_regime` evaluates the spec's seven rules as an ordered
decision list in which the first matching rule wins, with "Expansion" as
the default; a state with growth 3.5 and inflation 3.5 is classified
"Overheating", and growth 4.5 / inflation 4.5 is "Boom" regardless of
volatility (and of the timestamp). -/
theorem describe_regime_decision_list :
    (∀ st : MacroState, regimeLabel (describe_regime st) =
        firstMatching regimeRulesSpec "Expansion" st.growth st.inflation)
    ∧ (∀ v ts : ℚ, regimeLabel (describe_regime ⟨3.5, 3.5, v, ts⟩) = "Overheating")
    ∧ (∀ v ts : ℚ, regimeLabel (describe_regime ⟨4.5, 4.5, v, ts⟩) = "Boom") := by
  refine ⟨?_, ?_, ?_⟩
  · intro st
    simp only [describe_regime, regimeRulesSpec, firstMatching, decide_eq_true_eq]
    split_ifs <;> rfl
  · intro v ts
    have h : describe_regime ⟨3.5, 3.5, v, ts⟩ =
        "Overheating: Strong growth with rising inflation pressures" := by
      simp only [describe_regime]
      norm_num
    rw [h]
    rfl
  · intro v ts
    have h : describe_regime ⟨4.5, 4.5, v, ts⟩ =
        "Boom: High growth with elevated inflation" := by
      simp only [describe_regime]
      norm_num
    rw [h]
    rfl

/-- Counterexample to C4: the state {growth -0.5, inflation 1.0} matches
the stagnation rule (growth < 1 and inflation < 2), which is checked
before the recession rule, so `describe_regime` returns "Stagnation",
not "Recession". -/
theorem regime_recession_example_refuted :
    describe_regime ⟨-0.5, 1, 0, 0⟩ = "Stagnation: Low growth and subdued inflation"
    ∧ regimeLabel (describe_regime ⟨-0.5, 1, 0, 0⟩) ≠ "Recession" := by
  have h : describe_regime ⟨-0.5, 1, 0, 0⟩ =
      "Stagnation: Low growth and subdued inflation" := by
    simp only [describe_regime]
    norm_num
  refine ⟨h, ?_⟩
  rw [h]
  decide

/-- C4 amended: {growth -0.5, inflation 1.0} is classified "Stagnation"
(whatever the volatility and timestamp), and the classification is a pure
function of growth and inflation: states agreeing on those two variables
get identical labels. -/
theorem regime_stagnation_amended :
    (∀ v ts : ℚ, regimeLabel (describe_regime ⟨-0.5, 1, v, ts⟩) = "Stagnation")
    ∧ (∀ s1 s2 : MacroState, s1.growth = s2.growth → s1.inflation = s2.inflation →
        describe_regime s1 = describe_regime s2) := by
  constructor
  · intro v ts
    have h : describe_regime ⟨-0.5, 1, v, ts⟩ =
        "Stagnation: Low growth and subdued inflation" := by
      simp only [describe_regime]
      norm_num
    rw [h]
    rfl
  · intro s1 s2 hg hi
    simp only [describe_regime, hg, hi]

/-- Witness for the amended C4 at concrete states. -/
theorem regime_stagnation_amended_witness :
    regimeLabel (describe_regime ⟨-0.5, 1, 7, 0⟩) = "Stagnation"
    ∧ describe_regime ⟨4.5, 4.5, 0, 0⟩ = describe_regime ⟨4.5, 4.5, 99, 1⟩ :=
  ⟨regime_stagnation_amended.1 7 0,
   regime_stagnation_amended.2 ⟨4.5, 4.5, 0, 0⟩ ⟨4.5, 4.5, 99, 1⟩ rfl rfl⟩

/-- An entry of `TimelineScheduler.events`: the event type tag
("release" or "event"), the id of the underlying row (standing for the
`data` payload) and the parsed `sim_datetime`. -/
structure SchedEvent where
  type : String
  data : Nat
  sim_datetime : ℚ
deriving DecidableEq

/-- The failure modes of the scheduler (`TimelineSchedulerError`
messages): "No events loaded. Cannot start timeline." and
"Timeline not started. Call start() first.". -/
inductive SchedError where
  | emptyTimeline
  | notStarted
deriving DecidableEq

/-- `TimelineScheduler` state: the sorted event list, the cursor and the
`DEMO_DAY_DURATION` setting.  `simulation_start_time` and
`real_start_time` are both `None` until `start()` and are always assigned
together there, so the two fields are modelled as one optional pair. -/
structure SchedulerState where
  events : List SchedEvent
  current_index : Nat
  anchors : Option (ℚ × ℚ)
  demo_day_duration : ℚ
deriving DecidableEq

/-- `TimelineScheduler._load_events`: sort the merged provider events by
`sim_datetime` (a stable sort, as `list.sort` is). -/
def load_events (input : List SchedEvent) : List SchedEvent :=
  input.mergeSort (fun a b => decide (a.sim_datetime ≤ b.sim_datetime))

/-- `TimelineScheduler.__init__`: load the events, cursor at 0, anchors
unset. -/
def mkScheduler (input : List SchedEvent) (dayDuration : ℚ) : SchedulerState :=
  ⟨load_events input, 0, none, dayDuration⟩

/-- `TimelineScheduler.start`: fails on an empty timeline, otherwise
anchors the first event's simulated datetime to the current wall-clock
instant `now`. -/
def start (s : SchedulerState) (now : ℚ) : Except SchedError SchedulerState :=
  match s.events with
  | [] => .error .emptyTimeline
  | e :: _ => .ok { s with anchors := some (e.sim_datetime, now) }

/-- `TimelineScheduler._simulated_time_to_real_time`: fractional simulated
days since the anchor, times the compression constant. -/
def simulated_time_to_real_time (s : SchedulerState) (sim_datetime : ℚ) :
    Except SchedError ℚ :=
  match s.anchors with
  | none => .error .notStarted
  | some (simStart, _) =>
    let sim_days := (sim_datetime - simStart) / (24 * 3600)
    .ok (sim_days * s.demo_day_duration)

/-- `TimelineScheduler._get_current_simulated_time`: anchor plus elapsed
real seconds converted to simulated days. -/
def get_current_simulated_time (s : SchedulerState) (now : ℚ) :
    Except SchedError ℚ :=
  match s.anchors with
  | none => .error .notStarted
  | some (simStart, realStart) =>
    let real_elapsed := now - realStart
    let sim_days := real_elapsed / s.demo_day_duration
    .ok (simStart + sim_days * (24 * 3600))

/-- The dictionary returned by `TimelineScheduler.get_next_event`. -/
structure NextEvent where
  type : String
  data : Nat
  sim_datetime : ℚ
  real_time_seconds : ℚ
deriving DecidableEq

/-- `TimelineScheduler.get_next_event`: `none` once the cursor is past the
end, otherwise the current event paired with its real-time offset. -/
def get_next_event (s : SchedulerState) : Except SchedError (Option NextEvent) :=
  if h : s.current_index < s.events.length then
    let e := s.events.get ⟨s.current_index, h⟩
    (simulated_time_to_real_time s e.sim_datetime).map
      (fun rts => some ⟨e.type, e.data, e.sim_datetime, rts⟩)
  else
    .ok none

/-- The sequence of sleep slices of the chunked `while wait_time > 0`
loop, one `min 1.0 wait_time` slice per iteration; the loop runs
`⌈wait_time⌉` times, which fuels the recursion. -/
def sleepChunksAux : Nat → ℚ → List ℚ
  | 0, _ => []
  | fuel + 1, w => if w > 0 then min 1 w :: sleepChunksAux fuel (w - min 1 w) else []

/-- The sequence of `time.sleep` durations `wait_until_next_event` issues
for a computed wait time: nothing for `wait_time ≤ 0`, a single un-sliced
sleep for `0 < wait_time ≤ 5`, and the chunked loop for `wait_time > 5`. -/
def sleepCalls (wait_time : ℚ) : List ℚ :=
  if wait_time > 0 then
    if wait_time > 5 then sleepChunksAux ⌈wait_time⌉.toNat wait_time
    else [wait_time]
  else []

/-- `TimelineScheduler.wait_until_next_event`: returns the due event (or
`none` on exhaustion), the list of sleep durations performed, and the
updated state. -/
def wait_until_next_event (s : SchedulerState) (now : ℚ) :
    Except SchedError (Option NextEvent × List ℚ × SchedulerState) :=
  match get_next_event s with
  | .error e => .error e
  | .ok none => .ok (none, [], s)
  | .ok (some event) =>
    match s.anchors with
    | none => .error .notStarted
    | some (_, realStart) =>
      let elapsed := now - realStart
      let wait_time := event.real_time_seconds - elapsed
      .ok (some event, sleepCalls wait_time,
           { s with current_index := s.current_index + 1 })

/-- `TimelineScheduler.skip_to_next_event`: return the next event without
waiting, advancing the cursor only when an event was returned. -/
def skip_to_next_event (s : SchedulerState) :
    Except SchedError (Option NextEvent × SchedulerState) :=
  match get_next_event s with
  | .error e => .error e
  | .ok none => .ok (none, s)
  | .ok (some event) => .ok (some event, { s with current_index := s.current_index + 1 })

/-- The dictionary returned by `TimelineScheduler.get_progress`. -/
structure Progress where
  total_events : Nat
  processed_events : Nat
  remaining_events : Int
  progress_percentage : ℚ
  current_simulated_time : Option ℚ
deriving DecidableEq

/-- `TimelineScheduler.get_progress`: the percentage division is guarded
by `total_events > 0`; the current simulated time is computed only when
the timeline has started and is `None` otherwise. -/
def get_progress (s : SchedulerState) (now : ℚ) : Except SchedError Progress :=
  let total_events := s.events.length
  let processed_events := s.current_index
  let remaining_events : Int := (total_events : Int) - (processed_events : Int)
  let progress_pct : ℚ :=
    if 0 < total_events then (processed_events : ℚ) / (total_events : ℚ) * 100 else 0
  match s.anchors with
  | none => .ok ⟨total_events, processed_events, remaining_events, progress_pct, none⟩
  | some _ =>
    (get_current_simulated_time s now).map
      (fun t => ⟨total_events, processed_events, remaining_events, progress_pct, some t⟩)

/-- The `NextEvent` a started scheduler with simulated anchor `simStart`
and compression `dayDuration` builds for the event `e`. -/
def mkNextEvent (simStart dayDuration : ℚ) (e : SchedEvent) : NextEvent :=
  ⟨e.type, e.data, e.sim_datetime, (e.sim_datetime - simStart) / (24 * 3600) * dayDuration⟩

/-- C5: the two time conversions are exact inverses: for a started
scheduler with positive compression constant, converting a simulated time
to its real offset and evaluating the current simulated time at the real
anchor plus that offset recovers the original simulated time (exactly,
since the embedding uses rationals). -/
theorem sim_real_round_trip (s : SchedulerState) (a r t off : ℚ)
    (hD : 0 < s.demo_day_duration) (ha : s.anchors = some (a, r))
    (hoff : simulated_time_to_real_time s t = .ok off) :
    get_current_simulated_time s (r + off) = .ok t := by
  simp only [simulated_time_to_real_time, ha, Except.ok.injEq] at hoff
  simp only [get_current_simulated_time, ha, Except.ok.injEq]
  subst hoff
  have hD2 : s.demo_day_duration ≠ 0 := ne_of_gt hD
  field_simp
  ring

/-- Witness for C5: one simulated day at compression 120 is 120 real
seconds, and converting back lands on the original simulated time. -/
theorem sim_real_round_trip_witness :
    get_current_simulated_time ⟨[], 0, some (0, 100), 120⟩ (100 + 120) = .ok 86400 :=
  sim_real_round_trip ⟨[], 0, some (0, 100), 120⟩ 0 100 86400 120 (by norm_num) rfl
    (by simp only [simulated_time_to_real_time, Except.ok.injEq]; norm_num)

/-- Counterexample to C7: calling `wait_until_next_event` before `start()`
on a scheduler whose timeline is empty does not fail with `NotStarted`:
it reports exhaustion (`none`). -/
theorem awaitNext_unstarted_empty_no_error :
    wait_until_next_event (mkScheduler [] 120) 0 = .ok (none, [], mkScheduler [] 120)
    ∧ wait_until_next_event (mkScheduler [] 120) 0 ≠ .error .notStarted := by
  have h : wait_until_next_event (mkScheduler [] 120) 0 =
      .ok (none, [], mkScheduler [] 120) := by
    simp [wait_until_next_event, get_next_event, mkScheduler, load_events]
  exact ⟨h, by rw [h]; simp⟩

/-- C7 amended: `get_current_state` on an empty history fails with
`NoInitialState` and succeeds otherwise; `start` on an empty timeline
fails with `EmptyTimeline` and succeeds otherwise; `wait_until_next_event`
before `start` fails with `NotStarted` whenever an event remains (on an
empty timeline it returns `none` instead), and succeeds once started. -/
theorem precondition_errors_amended :
    (get_current_state [] = .error .noInitialState)
    ∧ (∀ hist : List HistoryRow, hist ≠ [] → ∃ cur, get_current_state hist = .ok cur)
    ∧ (∀ (s : SchedulerState) (now : ℚ), s.events = [] →
        start s now = .error .emptyTimeline)
    ∧ (∀ (s : SchedulerState) (now : ℚ), s.anchors = none →
        s.current_index < s.events.length →
        wait_until_next_event s now = .error .notStarted)
    ∧ (∀ (s : SchedulerState) (now : ℚ), s.events ≠ [] → ∃ s2, start s now = .ok s2)
    ∧ (∀ (s : SchedulerState) (now a r : ℚ), s.anchors = some (a, r) →
        ∃ res, wait_until_next_event s now = .ok res) := by
  refine ⟨?_, ?_, ?_, ?_, ?_, ?_⟩
  · simp [get_current_state, queryLatest]
  · intro hist hne
    unfold get_current_state
    cases hq : queryLatest hist with
    | none =>
      exfalso
      unfold queryLatest at hq
      have hnil := List.head?_eq_none_iff.mp hq
      have hperm := List.mergeSort_perm hist
        (fun a b => decide (b.timestamp ≤ a.timestamp))
      rw [hnil] at hperm
      exact hne hperm.nil_eq.symm
    | some latest => exact ⟨_, rfl⟩
  · intro s now hev
    simp [start, hev]
  · intro s now ha hlt
    simp [wait_until_next_event, get_next_event, hlt, simulated_time_to_real_time, ha,
      Except.map]
  · intro s now hne
    cases hev : s.events with
    | nil => exact absurd hev hne
    | cons e rest =>
      refine ⟨{ s with anchors := some (e.sim_datetime, now) }, ?_⟩
      simp [start, hev]
  · intro s now a r ha
    by_cases hlt : s.current_index < s.events.length
    · refine ⟨(some (mkNextEvent a s.demo_day_duration (s.events.get ⟨s.current_index, hlt⟩)),
        sleepCalls
          ((mkNextEvent a s.demo_day_duration
              (s.events.get ⟨s.current_index, hlt⟩)).real_time_seconds - (now - r)),
        { s with current_index := s.current_index + 1 }), ?_⟩
      simp [wait_until_next_event, get_next_event, hlt, simulated_time_to_real_time, ha,
        Except.map, mkNextEvent]
    · exact ⟨(none, [], s), by simp [wait_until_next_event, get_next_event, hlt]⟩

/-- Witness for the amended C7 at concrete schedulers. -/
theorem precondition_errors_amended_witness :
    start (mkScheduler [] 120) 0 = .error .emptyTimeline
    ∧ wait_until_next_event ⟨[⟨"release", 1, 0⟩], 0, none, 120⟩ 5 = .error .notStarted :=
  ⟨precondition_errors_amended.2.2.1 (mkScheduler [] 120) 0
      (by simp [mkScheduler, load_events]),
   precondition_errors_amended.2.2.2.1 ⟨[⟨"release", 1, 0⟩], 0, none, 120⟩ 5 rfl
      (by decide)⟩

/-- Counterexample to C8: `get_progress` on a scheduler that was never
started does not signal `NotStarted`: it returns normally, with the
current simulated time `none` and the other fields computed. -/
theorem progress_unstarted_no_error :
    get_progress (mkScheduler [⟨"release", 1, 0⟩] 120) 0 = .ok ⟨1, 0, 1, 0, none⟩
    ∧ get_progress (mkScheduler [⟨"release", 1, 0⟩] 120) 0 ≠ .error .notStarted := by
  have h : get_progress (mkScheduler [⟨"release", 1, 0⟩] 120) 0 =
      .ok ⟨1, 0, 1, 0, none⟩ := by
    simp [get_progress, mkScheduler, load_events]
  exact ⟨h, by rw [h]; simp⟩

/-- C8 amended: before `start()`, `get_progress` succeeds with
`current_simulated_time = none` (the "unknown" outcome — no datetime is
fabricated), while the totals, counts and percentage are still computed. -/
theorem progress_unstarted_amended (s : SchedulerState) (now : ℚ)
    (ha : s.anchors = none) :
    get_progress s now =
      .ok ⟨s.events.length, s.current_index,
           (s.events.length : Int) - (s.current_index : Int),
           (if 0 < s.events.length then
              (s.current_index : ℚ) / (s.events.length : ℚ) * 100 else 0),
           none⟩ := by
  simp [get_progress, ha]

/-- Witness for the amended C8. -/
theorem progress_unstarted_amended_witness :
    get_progress ⟨[⟨"release", 1, 0⟩, ⟨"event", 2, 5⟩], 1, none, 120⟩ 9 =
      .ok ⟨2, 1, 1, 50, none⟩ := by
  have h := progress_unstarted_amended ⟨[⟨"release", 1, 0⟩, ⟨"event", 2, 5⟩], 1, none, 120⟩
    9 rfl
  refine h.trans ?_
  norm_num

/-- C10: on a zero-event timeline `get_progress` does not fail and does
not divide by zero: in every reachable cursor state it reports all of
total, processed, remaining and percentage as 0 (the percentage division
being guarded by the `total > 0` check). -/
theorem progress_empty_timeline (s : SchedulerState) (now : ℚ)
    (hev : s.events = []) (hidx : s.current_index ≤ s.events.length) :
    (get_progress s now).map
        (fun p => (p.total_events, p.processed_events, p.remaining_events,
                   p.progress_percentage)) =
      .ok (0, 0, 0, 0) := by
  have hidx0 : s.current_index = 0 := by
    rw [hev] at hidx
    simpa using hidx
  cases hanch : s.anchors with
  | none => simp [get_progress, hanch, hev, hidx0, Except.map]
  | some anch =>
    obtain ⟨a, r⟩ := anch
    simp [get_progress, get_current_simulated_time, hanch, hev, hidx0, Except.map]

/-- Witness for C10 on the freshly built empty scheduler. -/
theorem progress_empty_timeline_witness :
    (get_progress (mkScheduler [] 120) 0).map
        (fun p => (p.total_events, p.processed_events, p.remaining_events,
                   p.progress_percentage)) =
      .ok (0, 0, 0, 0) :=
  progress_empty_timeline (mkScheduler [] 120) 0 (by simp [mkScheduler, load_events])
    (by simp [mkScheduler])

lemma sleepChunksAux_mem : ∀ (fuel : Nat) (w c : ℚ), c ∈ sleepChunksAux fuel w → 0 < c ∧ c ≤ 1 := by
  intro fuel
  induction fuel with
  | zero =>
    intro w c h
    simp [sleepChunksAux] at h
  | succ n ih =>
    intro w c h
    simp only [sleepChunksAux] at h
    by_cases hw : w > 0
    · rw [if_pos hw] at h
      rcases List.mem_cons.mp h with h1 | h1
      · subst h1
        exact ⟨lt_min one_pos hw, min_le_left 1 w⟩
      · exact ih _ _ h1
    · rw [if_neg hw] at h
      simp at h

/-- Counterexample to C9: with a computed wait time of 3 seconds (positive
but not above the 5-second threshold), `wait_until_next_event` issues one
single un-sliced sleep of 3 seconds, which exceeds 1 second. -/
theorem sleep_slices_refuted :
    wait_until_next_event ⟨[⟨"event", 1, 3⟩], 0, some (0, 0), 86400⟩ 0 =
      .ok (some ⟨"event", 1, 3, 3⟩, [3], ⟨[⟨"event", 1, 3⟩], 1, some (0, 0), 86400⟩)
    ∧ ¬ ((3 : ℚ) ≤ 1) := by
  constructor
  · norm_num [wait_until_next_event, get_next_event, simulated_time_to_real_time,
      Except.map, sleepCalls]
  · norm_num

/-- C9 amended: the suspension is sliced into chunks of at most 1 second
only when the wait exceeds 5 seconds; a wait in (0, 5] is slept in one
un-sliced call, so every single sleep issued by `wait_until_next_event`
lasts at most 5 seconds (and at most 1 second when the total wait is
above 5 seconds). -/
theorem sleep_slices_amended :
    (∀ w c : ℚ, c ∈ sleepCalls w → 0 < c ∧ c ≤ 5 ∧ (5 < w → c ≤ 1))
    ∧ (∀ (s : SchedulerState) (now : ℚ) (o : Option NextEvent) (sl : List ℚ)
        (s2 : SchedulerState), wait_until_next_event s now = .ok (o, sl, s2) →
        ∀ c ∈ sl, 0 < c ∧ c ≤ 5) := by
  have key : ∀ w c : ℚ, c ∈ sleepCalls w → 0 < c ∧ c ≤ 5 ∧ (5 < w → c ≤ 1) := by
    intro w c h
    unfold sleepCalls at h
    by_cases h0 : w > 0
    · rw [if_pos h0] at h
      by_cases h5 : w > 5
      · rw [if_pos h5] at h
        obtain ⟨hc0, hc1⟩ := sleepChunksAux_mem _ _ _ h
        exact ⟨hc0, hc1.trans (by norm_num), fun _ => hc1⟩
      · rw [if_neg h5] at h
        simp only [List.mem_singleton] at h
        subst h
        exact ⟨h0, le_of_not_lt h5, fun h52 => absurd h52 h5⟩
    · rw [if_neg h0] at h
      simp at h
  refine ⟨key, ?_⟩
  intro s now o sl s2 h c hc
  unfold wait_until_next_event at h
  split at h
  · simp at h
  · simp only [Except.ok.injEq, Prod.mk.injEq] at h
    obtain ⟨-, h2, -⟩ := h
    subst h2
    simp at hc
  · split at h
    · simp at h
    · simp only [Except.ok.injEq, Prod.mk.injEq] at h
      obtain ⟨-, h2, -⟩ := h
      subst h2
      obtain ⟨hc0, hc5, -⟩ := key _ _ hc
      exact ⟨hc0, hc5⟩

/-- Witness for the amended C9 at the wait time 3 and its single sleep. -/
theorem sleep_slices_amended_witness :
    0 < (3 : ℚ) ∧ (3 : ℚ) ≤ 5 ∧ (5 < (3 : ℚ) → (3 : ℚ) ≤ 1) :=
  sleep_slices_amended.1 3 3 (by norm_num [sleepCalls])

/-- The simulated anchor of a started scheduler (0 when unset). -/
def anchorSim (s : SchedulerState) : ℚ := (s.anchors.map Prod.fst).getD 0

/-- `n` successive `skip_to_next_event` calls, collecting the returned
events and threading the state. -/
def run_skips : SchedulerState → Nat → Except SchedError (List NextEvent × SchedulerState)
  | s, 0 => .ok ([], s)
  | s, n + 1 =>
    match skip_to_next_event s with
    | .error e => .error e
    | .ok (none, s1) => run_skips s1 n
    | .ok (some ev, s1) => (run_skips s1 n).map (fun p => (ev :: p.1, p.2))

lemma get_next_event_started (s : SchedulerState) (a r : ℚ)
    (ha : s.anchors = some (a, r)) :
    get_next_event s = .ok
      (if h : s.current_index < s.events.length then
        some (mkNextEvent a s.demo_day_duration (s.events.get ⟨s.current_index, h⟩))
      else none) := by
  by_cases h : s.current_index < s.events.length
  · simp [get_next_event, h, simulated_time_to_real_time, ha, Except.map, mkNextEvent]
  · simp [get_next_event, h]

lemma skip_spec_lt (s : SchedulerState) (a r : ℚ) (ha : s.anchors = some (a, r))
    (h : s.current_index < s.events.length) :
    skip_to_next_event s = .ok
      (some (mkNextEvent a s.demo_day_duration (s.events.get ⟨s.current_index, h⟩)),
       { s with current_index := s.current_index + 1 }) := by
  simp [skip_to_next_event, get_next_event_started s a r ha, h]

lemma skip_spec_ge (s : SchedulerState) (h : ¬ s.current_index < s.events.length) :
    skip_to_next_event s = .ok (none, s) := by
  simp [skip_to_next_event, get_next_event, h]

lemma run_skips_spec (a r : ℚ) (n : Nat) :
    ∀ s : SchedulerState, s.anchors = some (a, r) →
      s.current_index ≤ s.events.length →
      run_skips s n =
        .ok (((s.events.drop s.current_index).take n).map
               (mkNextEvent a s.demo_day_duration),
             { s with current_index := min (s.current_index + n) s.events.length }) := by
  induction n with
  | zero =>
    intro s ha hle
    simp [run_skips, min_eq_left hle]
  | succ n ih =>
    intro s ha hle
    by_cases h : s.current_index < s.events.length
    · have hskip := skip_spec_lt s a r ha h
      have hrec := ih { s with current_index := s.current_index + 1 } ha (by simp; omega)
      dsimp only at hrec
      simp only [run_skips, hskip, hrec, Except.map]
      have hdrop : s.events.drop s.current_index =
          s.events.get ⟨s.current_index, h⟩ :: s.events.drop (s.current_index + 1) := by
        exact List.drop_eq_getElem_cons h
      have hmin : s.current_index + 1 + n = s.current_index + (n + 1) := by omega
      rw [hdrop, List.take_succ_cons, List.map_cons, hmin]
    · have hskip := skip_spec_ge s h
      have hrec := ih s ha hle
      have hd : s.events.drop s.current_index = [] :=
        List.drop_of_length_le (not_lt.mp h)
      have h1 : min (s.current_index + n) s.events.length = s.events.length := by omega
      have h2 : min (s.current_index + (n + 1)) s.events.length = s.events.length := by
        omega
      simp only [run_skips, hskip, hrec, hd, h1, h2, List.take_nil, List.map_nil]

lemma load_events_pairwise (input : List SchedEvent) :
    List.Pairwise (fun e1 e2 => e1.sim_datetime ≤ e2.sim_datetime) (load_events input) := by
  have h := @List.sorted_mergeSort SchedEvent
    (fun a b : SchedEvent => decide (a.sim_datetime ≤ b.sim_datetime))
    (fun a b c h1 h2 => by
      simp only [decide_eq_true_eq] at h1 h2 ⊢
      exact le_trans h1 h2)
    (fun a b => by
      simp only [Bool.or_eq_true, decide_eq_true_eq]
      exact le_total _ _)
    input
  exact h.imp (fun hab => by simpa using hab)

/-- C6: the scheduler cursor starts at 0, advances by exactly 1 per
successful call and is left unchanged by unsuccessful ones;
`wait_until_next_event` returns the same event and moves the cursor
exactly as `skip_to_next_event`; and on a started scheduler, `n`
successive calls return the first `n` events of the sorted timeline (in
non-decreasing `sim_datetime` order), leaving the cursor at
`min n length`, which never exceeds the timeline length. -/
theorem scheduler_cursor_monotone :
    (∀ (s : SchedulerState) (o : Option NextEvent) (s2 : SchedulerState),
        skip_to_next_event s = .ok (o, s2) →
        (∀ ev, o = some ev → s2.current_index = s.current_index + 1) ∧
        (o = none → s2 = s))
    ∧ (∀ (s : SchedulerState) (now : ℚ),
        (wait_until_next_event s now).map (fun x => (x.1, x.2.2)) = skip_to_next_event s)
    ∧ (∀ (input : List SchedEvent) (dayDuration now0 : ℚ) (s1 : SchedulerState),
        start (mkScheduler input dayDuration) now0 = .ok s1 →
        s1.current_index = 0 ∧
        List.Pairwise (fun e1 e2 => e1.sim_datetime ≤ e2.sim_datetime) s1.events ∧
        ∀ n : Nat,
          run_skips s1 n =
            .ok ((s1.events.take n).map (mkNextEvent (anchorSim s1) s1.demo_day_duration),
                 { s1 with current_index := min n s1.events.length }) ∧
          min n s1.events.length ≤ s1.events.length ∧
          List.Pairwise (fun x y => x.sim_datetime ≤ y.sim_datetime)
            ((s1.events.take n).map (mkNextEvent (anchorSim s1) s1.demo_day_duration))) := by
  refine ⟨?_, ?_, ?_⟩
  · intro s o s2 h
    unfold skip_to_next_event at h
    split at h
    · simp at h
    · simp only [Except.ok.injEq, Prod.mk.injEq] at h
      obtain ⟨h1, h2⟩ := h
      subst h1
      subst h2
      exact ⟨fun ev hev => by simp at hev, fun _ => rfl⟩
    · simp only [Except.ok.injEq, Prod.mk.injEq] at h
      obtain ⟨h1, h2⟩ := h
      subst h1
      subst h2
      exact ⟨fun ev _ => rfl, fun hnone => by simp at hnone⟩
  · intro s now
    cases hg : get_next_event s with
    | error e => simp [wait_until_next_event, skip_to_next_event, hg, Except.map]
    | ok o =>
      cases o with
      | none => simp [wait_until_next_event, skip_to_next_event, hg, Except.map]
      | some ev =>
        cases hanch : s.anchors with
        | none =>
          exfalso
          by_cases hlt : s.current_index < s.events.length
          · rw [get_next_event, dif_pos hlt] at hg
            simp [simulated_time_to_real_time, hanch, Except.map] at hg
          · rw [get_next_event, dif_neg hlt] at hg
            simp at hg
        | some anch =>
          obtain ⟨a, r⟩ := anch
          simp [wait_until_next_event, skip_to_next_event, hg, hanch, Except.map]
  · intro input dayDuration now0 s1 hstart
    simp only [start, mkScheduler] at hstart
    split at hstart
    · simp at hstart
    · rename_i e rest heq
      simp only [Except.ok.injEq] at hstart
      subst hstart
      refine ⟨rfl, load_events_pairwise input, ?_⟩
      intro n
      have hrun := run_skips_spec e.sim_datetime now0 n
        ⟨load_events input, 0, some (e.sim_datetime, now0), dayDuration⟩ rfl
        (Nat.zero_le _)
      refine ⟨?_, min_le_right _ _, ?_⟩
      · simpa [anchorSim] using hrun
      · have hp := (load_events_pairwise input).sublist (List.take_sublist n _)
        exact hp.map _ (fun e1 e2 hle => hle)

/-- Witness for C6: a concrete two-event timeline supplied out of order is
sorted at load, started, and fully consumed by three skip calls, the
third reporting exhaustion. -/
theorem scheduler_cursor_monotone_witness :
    run_skips ⟨[⟨"release", 10, 0⟩, ⟨"event", 20, 86400⟩], 0, some (0, 50), 120⟩ 3 =
      .ok ([⟨"release", 10, 0, 0⟩, ⟨"event", 20, 86400, 120⟩],
           ⟨[⟨"release", 10, 0⟩, ⟨"event", 20, 86400⟩], 2, some (0, 50), 120⟩) := by
  have h := (scheduler_cursor_monotone.2.2 [⟨"event", 20, 86400⟩, ⟨"release", 10, 0⟩]
    120 50 ⟨[⟨"release", 10, 0⟩, ⟨"event", 20, 86400⟩], 0, some (0, 50), 120⟩
    (by norm_num [start, mkScheduler, load_events, List.mergeSort, List.merge])).2.2 3
  refine h.1.trans ?_
  norm_num [anchorSim, mkNextEvent]

end MacroSim
